import Mathlib

/-!
# Women's Safety App: position tracker and SOS dispatcher

A shallow embedding of the page scripts `static/js/sos.js` and
`static/script.js`.  Every callback of the scripts is a pure function on an
explicit page state (`Page`): the status element, the Leaflet map with its
marker and accuracy circle, the watch subscriptions registered with the location
source, the outbound requests and the console.

JavaScript numbers delivered by the location source are finite doubles; they are
embedded as rationals, on which comparison is exact.  The host built-ins that
the scripts call (`toFixed`, `JSON.stringify`, template-literal string
conversion, `Array.prototype.join`) follow ECMAScript.
-/

namespace WomenSafety

/-! ## Host -/

/-- The parts of the browser the scripts depend on. -/
structure Host where
  /-- Whether `navigator.geolocation` is truthy. -/
  geolocation : Bool
  /-- The handle `watchPosition` returns for the tracker subscription. -/
  watchHandle : Nat
  /-- The built-in conversion of a finite number to a string (`Number::toString`). -/
  numberToString : Rat → String

/-! ## Values produced by `JSON.parse` -/

/-- A JSON value.  An object is the list of its own properties, keys distinct. -/
inductive Json where
  | null
  | bool (b : Bool)
  | num (x : Rat)
  | str (s : String)
  | arr (xs : List Json)
  | obj (kvs : List (String × Json))

/-- Own-property test on the property list of a parsed object. -/
def hasKey (k : String) : List (String × Json) → Bool
  | [] => false
  | (k2, _) :: rest => k == k2 || hasKey k rest

/-- Own-property read on the property list of a parsed object (`none` is `undefined`). -/
def lookupKey (k : String) : List (String × Json) → Option Json
  | [] => none
  | (k2, v) :: rest => if k == k2 then some v else lookupKey k rest

mutual
/-- ECMAScript `ToString` on a parsed value; `none` is a thrown `TypeError`
(an object whose own `toString` property shadows the callable built-in). -/
def jsToString (h : Host) : Json → Option String
  | .null => some "null"
  | .bool b => some (if b then "true" else "false")
  | .num x => some (h.numberToString x)
  | .str s => some s
  | .arr xs =>
    match xs with
    | [] => some ""
    | .null :: rest =>
      match joinTail h "," rest with
      | some t => some ("" ++ t)
      | none => none
    | x :: rest =>
      match jsToString h x, joinTail h "," rest with
      | some a, some t => some (a ++ t)
      | _, _ => none
  | .obj kvs => if hasKey "toString" kvs then none else some "[object Object]"
termination_by structural x => x
/-- The loop of `Array.prototype.join` after the first element: each further
element is preceded by the separator, and `null` contributes the empty string. -/
def joinTail (h : Host) (sep : String) : List Json → Option String
  | [] => some ""
  | .null :: rest =>
    match joinTail h sep rest with
    | some t => some (sep ++ "" ++ t)
    | none => none
  | x :: rest =>
    match jsToString h x, joinTail h sep rest with
    | some a, some t => some (sep ++ a ++ t)
    | _, _ => none
termination_by structural x => x
end

/-- The built-in `Array.prototype.join(sep)` on the elements of a parsed array. -/
def arrayJoin (h : Host) (sep : String) : List Json → Option String
  | [] => some ""
  | .null :: rest =>
    match joinTail h sep rest with
    | some t => some ("" ++ t)
    | none => none
  | x :: rest =>
    match jsToString h x, joinTail h sep rest with
    | some a, some t => some (a ++ t)
    | _, _ => none

/-- Property read `v.k` for a property name `k` that no built-in prototype
defines (`message`, `contacts_notified`, `volunteers_notified`, `area_safe`).
The outer `none` is the `TypeError` of reading a property of `null`; the inner
`none` is `undefined`. -/
def getProp (v : Json) (k : String) : Option (Option Json) :=
  match v with
  | .null => none
  | .obj kvs => some (lookupKey k kvs)
  | _ => some none

/-- String conversion of an interpolated template-literal value. -/
def templateString (h : Host) : Option Json → Option String
  | none => some "undefined"
  | some v => jsToString h v

/-- The call `v.join(sep)`: only an array has a callable `join`, every other
value (and `undefined`) makes the call throw a `TypeError` (`none`). -/
def callJoin (h : Host) (sep : String) : Option Json → Option String
  | some (.arr xs) => arrayJoin h sep xs
  | _ => none

/-! ## `JSON.stringify` -/

/-- The lowercase hexadecimal digit of a value below 16. -/
def hexDigit (n : Nat) : Char :=
  if n < 10 then Char.ofNat (48 + n) else Char.ofNat (87 + n)

/-- The escape of one character inside a JSON string (`QuoteJSONString`). -/
def quoteChar (c : Char) : String :=
  if c = '\"' then "\\\""
  else if c = '\\' then "\\\\"
  else if c.toNat = 8 then "\\b"
  else if c.toNat = 9 then "\\t"
  else if c.toNat = 10 then "\\n"
  else if c.toNat = 12 then "\\f"
  else if c.toNat = 13 then "\\r"
  else if c.toNat < 32 then
    String.mk ['\\', 'u', '0', '0', hexDigit (c.toNat / 16), hexDigit (c.toNat % 16)]
  else String.singleton c

/-- JSON string literal of a string (`QuoteJSONString`). -/
def quoteJSONString (s : String) : String :=
  "\"" ++ String.join (s.data.map quoteChar) ++ "\""

mutual
/-- The built-in `JSON.stringify` (no indentation) of a value built from finite numbers,
strings, booleans, `null`, arrays and plain objects. -/
def JSON_stringify (h : Host) : Json → String
  | .null => "null"
  | .bool b => if b then "true" else "false"
  | .num x => h.numberToString x
  | .str s => quoteJSONString s
  | .arr xs =>
    match xs with
    | [] => "[]"
    | x :: rest => "[" ++ JSON_stringify h x ++ stringifyElems h rest ++ "]"
  | .obj kvs =>
    match kvs with
    | [] => "\x7b\x7d"
    | (k, v) :: rest =>
      "\x7b" ++ quoteJSONString k ++ ":" ++ JSON_stringify h v ++ stringifyFields h rest ++ "\x7d"
termination_by structural x => x
/-- The array elements after the first, each preceded by a comma. -/
def stringifyElems (h : Host) : List Json → String
  | [] => ""
  | x :: rest => "," ++ JSON_stringify h x ++ stringifyElems h rest
termination_by structural x => x
/-- The object members after the first, each preceded by a comma. -/
def stringifyFields (h : Host) : List (String × Json) → String
  | [] => ""
  | (k, v) :: rest =>
    "," ++ quoteJSONString k ++ ":" ++ JSON_stringify h v ++ stringifyFields h rest
termination_by structural x => x
end

/-! ## `Number.prototype.toFixed` -/

/-- Steps 11.b and 11.c of `toFixed`: the decimal digits of the scaled integer
`n`, padded with leading zeros to more than `f` digits, with a point before the
last `f` digits when `f` is not zero. -/
def fixedNotation (n f : Nat) : String :=
  let m : List Char := if n = 0 then ['0'] else (Nat.repr n).data
  if f ≠ 0 then
    let k := m.length
    let m := if k ≤ f then List.replicate (f + 1 - k) '0' ++ m else m
    let k := if k ≤ f then f + 1 else k
    String.mk (m.take (k - f) ++ '.' :: m.drop (k - f))
  else String.mk m

/-- The built-in `x.toFixed(f)` for a finite number `x` and `0 ≤ f ≤ 100`, following the
steps of ECMAScript: the sign is split off, a magnitude of at least `10^21` is
printed by `Number::toString`, any other magnitude is scaled by `10^f`, rounded
to the nearest integer (the larger one on a tie) and printed in fixed notation. -/
def toFixed (h : Host) (x : Rat) (f : Nat) : String :=
  let s := if x < 0 then "-" else ""
  let x := if x < 0 then -x else x
  let m :=
    if (10 : Rat) ^ 21 ≤ x then h.numberToString x
    else fixedNotation (Rat.floor (x * (10 : Rat) ^ f + 1 / 2)).toNat f
  s ++ m

/-! ## Location source -/

/-- The coordinates of a location sample (`position.coords`). -/
structure Coords where
  latitude : Rat
  longitude : Rat
  accuracy : Rat

/-- A location sample as delivered to a success callback. -/
structure Position where
  coords : Coords

/-- An error as delivered to an error callback: its numeric code and its
free-text message. -/
structure PositionError where
  code : Nat
  message : String
  deriving DecidableEq

/-- The constant `err.PERMISSION_DENIED` of the error interface. -/
def PositionError.PERMISSION_DENIED (_ : PositionError) : Nat := 1

/-- The constant `err.POSITION_UNAVAILABLE` of the error interface. -/
def PositionError.POSITION_UNAVAILABLE (_ : PositionError) : Nat := 2

/-- The constant `err.TIMEOUT` of the error interface. -/
def PositionError.TIMEOUT (_ : PositionError) : Nat := 3

/-- The four classes of location errors. -/
inductive ErrorClass where
  | permissionDenied
  | positionUnavailable
  | timeout
  | unknown
  deriving DecidableEq

/-- The class of a location error, read off its code. -/
def PositionError.errorClass (e : PositionError) : ErrorClass :=
  if e.code = 1 then .permissionDenied
  else if e.code = 2 then .positionUnavailable
  else if e.code = 3 then .timeout
  else .unknown

/-! ## Leaflet objects -/

/-- A geographic point `[lat, lon]`. -/
structure LatLng where
  lat : Rat
  lng : Rat
  deriving DecidableEq

/-- A marker object; `id` is its identity. -/
structure Marker where
  id : Nat
  latlng : LatLng
  deriving DecidableEq

/-- A circle object with the path options it was created with; `id` is its identity. -/
structure Circle where
  id : Nat
  latlng : LatLng
  radius : Rat
  color : Option String
  fillColor : Option String
  fillOpacity : Option Rat
  deriving DecidableEq

/-- A layer added to the map, by the identity of the object added. -/
inductive Layer where
  | tile (id : Nat) (url : String) (attribution : String)
  | marker (id : Nat)
  | circle (id : Nat)
  deriving DecidableEq

/-- The map object: its view and the layers added to it, oldest first. -/
structure MapView where
  center : LatLng
  zoom : Nat
  layers : List Layer
  deriving DecidableEq

/-! ## Page state -/

/-- An outbound `fetch` request. -/
structure Request where
  url : String
  method : String
  headers : List (String × String)
  body : String
  deriving DecidableEq

/-- Why an SOS exchange ended in the `catch` handler. -/
inductive SosFailure where
  | network
  | decode
  | render
  deriving DecidableEq

/-- An entry written by `console.error`. -/
inductive LogEntry where
  | location (e : PositionError)
  | sos (cause : SosFailure)
  deriving DecidableEq

/-- The state the callbacks of a page script read and write. -/
structure Page where
  /-- The markup of the status element, `status.innerHTML`. -/
  status : String
  /-- The Leaflet map. -/
  map : MapView
  /-- The variable `marker` (`none` is `null`). -/
  marker : Option Marker
  /-- The variable `accuracyCircle` (`none` is `null`). -/
  accuracyCircle : Option Circle
  /-- The identity the next created object receives. -/
  nextId : Nat
  /-- The watch subscriptions registered with the location source. -/
  activeWatches : List Nat
  /-- The requests sent by `fetch`, oldest first. -/
  requests : List Request
  /-- The console, newest entry first. -/
  console : List LogEntry
  deriving DecidableEq

/-- The call `navigator.geolocation.clearWatch(id)`. -/
def clearWatch (id : Nat) (st : Page) : Page :=
  { st with activeWatches := st.activeWatches.filter (fun w => w ≠ id) }

/-- Whether the tracker subscription is still registered with the location source. -/
def watching (h : Host) (st : Page) : Bool :=
  decide (h.watchHandle ∈ st.activeWatches)

/-- What the location source delivers to a watch subscription. -/
inductive GeoEvent where
  | position (p : Position)
  | error (e : PositionError)

/-- The number of marker layers on the map. -/
def markerCount (m : MapView) : Nat :=
  (m.layers.filter (fun l => match l with | .marker _ => true | _ => false)).length

/-- The number of circle layers on the map. -/
def circleCount (m : MapView) : Nat :=
  (m.layers.filter (fun l => match l with | .circle _ => true | _ => false)).length

/-- Whether a property read produced an array (the value has a callable `join`). -/
def holdsList : Option (Option Json) → Bool
  | some (some (.arr _)) => true
  | _ => false

/-- The strings of a list, each preceded by the separator. -/
def sepConcat (sep : String) : List String → String
  | [] => ""
  | a :: as => sep ++ a ++ sepConcat sep as

/-- A host for evaluating the scripts on concrete inputs: the location source is
supported, the tracker subscription has handle 1, and integral numbers print in
decimal (the evaluations below use integral coordinates of small magnitude). -/
def browser : Host :=
  { geolocation := true
    watchHandle := 1
    numberToString := fun x => if x.den = 1 then toString x.num else toString x.num ++ "/" ++ toString x.den }

/-- The same host without a location source. -/
def legacyBrowser : Host :=
  { browser with geolocation := false }

/-- The host `browser` with the one further value of `Number::toString` that an
evaluation at the number `10^21` needs: ECMAScript prints it as `1e+21`. -/
def exponentBrowser : Host :=
  { browser with
    numberToString := fun x => if x = (10 : Rat) ^ 21 then "1e+21" else browser.numberToString x }

/-- Whether a string is a number in fixed-point notation with exactly `f`
decimal places: an optional minus sign, at least one digit, a point, and then
exactly `f` digits and nothing else. -/
def isFixedPoint (f : Nat) (s : String) : Bool :=
  let cs := if s.data.head? = some '-' then s.data.tail else s.data
  match cs.dropWhile Char.isDigit with
  | '.' :: frac =>
    !(cs.takeWhile Char.isDigit).isEmpty && frac.length == f && frac.all Char.isDigit
  | _ => false

/-- The fixed status message of `static/js/sos.js` for each class of location error. -/
def errorMessage : ErrorClass → String
  | .permissionDenied => "Permission denied. Please allow location access."
  | .positionUnavailable => "Location information is unavailable."
  | .timeout => "Getting location timed out. Please try again."
  | .unknown => "An unknown error occurred while fetching location."

/-- The tile URL template both scripts pass to `L.tileLayer`. -/
def tileUrl : String := "https://\x7bs\x7d.tile.openstreetmap.org/\x7bz\x7d/\x7bx\x7d/\x7by\x7d.png"

/-! ## `static/js/sos.js` -/

namespace SosJs

/-- The map, marker variables and status element right after the map is
initialised (lines 2-11): view `[0, 0]` at zoom 13, one tile layer, no marker,
no circle.  `status0` is the markup the status element holds in the document. -/
def initial (status0 : String) : Page :=
  { status := status0
    map :=
      { center := ⟨0, 0⟩
        zoom := 13
        layers :=
          [Layer.tile 0 tileUrl
            "Map data © <a href=\"https://openstreetmap.org\">OpenStreetMap</a> contributors"] }
    marker := none
    accuracyCircle := none
    nextId := 1
    activeWatches := []
    requests := []
    console := [] }

/-- The function `updateMap(lat, lon, accuracy)` (lines 14-31). -/
def updateMap (h : Host) (lat lon accuracy : Rat) (st : Page) : Page :=
  let st : Page :=
    match st.marker with
    | some m => { st with marker := some { m with latlng := ⟨lat, lon⟩ } }
    | none =>
      { st with
        marker := some { id := st.nextId, latlng := ⟨lat, lon⟩ }
        nextId := st.nextId + 1
        map := { st.map with layers := st.map.layers ++ [Layer.marker st.nextId] } }
  let st : Page :=
    match st.accuracyCircle with
    | some c => { st with accuracyCircle := some { c with latlng := ⟨lat, lon⟩, radius := accuracy } }
    | none =>
      { st with
        accuracyCircle :=
          some
            { id := st.nextId
              latlng := ⟨lat, lon⟩
              radius := accuracy
              color := some "blue"
              fillColor := some "#blue"
              fillOpacity := some (2 / 10) }
        nextId := st.nextId + 1
        map := { st.map with layers := st.map.layers ++ [Layer.circle st.nextId] } }
  let st : Page := { st with map := { st.map with center := ⟨lat, lon⟩, zoom := 15 } }
  { st with
    status :=
      "Current Location: " ++ toFixed h lat 5 ++ ", " ++ toFixed h lon 5 ++
        "<br>Accuracy: ±" ++ toFixed h accuracy 1 ++ " meters" }

/-- A sequence of `updateMap` calls, each given as `(lat, lon, accuracy)`. -/
def updateAll (h : Host) (calls : List (Rat × Rat × Rat)) (st : Page) : Page :=
  calls.foldl (fun s a => updateMap h a.1 a.2.1 a.2.2 s) st

/-- The success callback of `watchPosition` (lines 36-48). -/
def onPosition (h : Host) (position : Position) (st : Page) : Page :=
  let lat := position.coords.latitude
  let lon := position.coords.longitude
  let accuracy := position.coords.accuracy
  let st := updateMap h lat lon accuracy st
  if accuracy ≤ 30 then
    let st := clearWatch h.watchHandle st
    { st with status := st.status ++ "<br>Location acquired accurately!" }
  else st

/-- The error callback of `watchPosition` (lines 49-64). -/
def onError (err : PositionError) (st : Page) : Page :=
  let st : Page := { st with console := LogEntry.location err :: st.console }
  if err.code = err.PERMISSION_DENIED then
    { st with status := "Permission denied. Please allow location access." }
  else if err.code = err.POSITION_UNAVAILABLE then
    { st with status := "Location information is unavailable." }
  else if err.code = err.TIMEOUT then
    { st with status := "Getting location timed out. Please try again." }
  else
    { st with status := "An unknown error occurred while fetching location." }

/-- The page after the `DOMContentLoaded` handler has run (lines 1-73): the
tracker subscribes when the location source is supported, otherwise the status
reports that it is not. -/
def load (h : Host) (status0 : String) : Page :=
  if h.geolocation then
    { initial status0 with activeWatches := [h.watchHandle] }
  else
    { initial status0 with status := "Geolocation is not supported by your browser." }

/-- Delivery of one event by the location source to the tracker subscription:
the callbacks run only while the subscription is registered. -/
def deliver (h : Host) (ev : GeoEvent) (st : Page) : Page :=
  if watching h st then
    match ev with
    | .position p => onPosition h p st
    | .error e => onError e st
  else st

/-- Delivery of a sequence of events, in order. -/
def run (h : Host) (evs : List GeoEvent) (st : Page) : Page :=
  evs.foldl (fun s ev => deliver h ev s) st

/-- The outcome of the `getCurrentPosition` call of one click. -/
inductive GeoOutcome where
  | success (position : Position)
  | failure (err : PositionError)

/-- The outcome of the `fetch` of one click: the promise rejects, or it
resolves with a response whose body `res.json()` parses (`some`) or not (`none`). -/
inductive FetchOutcome where
  | rejected
  | response (json : Option Json)

/-- The `fetch('/sos', ...)` call (lines 82-86). -/
def sendSos (h : Host) (latitude longitude : Rat) (st : Page) : Page :=
  { st with
    requests :=
      st.requests ++
        [{ url := "/sos"
           method := "POST"
           headers := [("Content-Type", "application/json")]
           body :=
             JSON_stringify h (.obj [("latitude", .num latitude), ("longitude", .num longitude)]) }] }

/-- The template literal of the success handler (lines 89-92); `none` when
evaluating it throws. -/
def renderSos (h : Host) (data : Json) : Option String := do
  let message ← templateString h (← getProp data "message")
  let contacts ← callJoin h ", " (← getProp data "contacts_notified")
  let volunteers ← callJoin h ", " (← getProp data "volunteers_notified")
  let safe ← templateString h (← getProp data "area_safe")
  pure ("<b>" ++ message ++ "</b><br>\n                    <strong>Contacts notified:</strong> " ++
    contacts ++ "<br>\n                    <strong>Nearby volunteers:</strong> " ++
    volunteers ++ "<br>\n                    <strong>Area safe:</strong> " ++ safe)

/-- The `catch` handler (lines 94-97). -/
def sosCatch (cause : SosFailure) (st : Page) : Page :=
  { st with
    status := "Error sending SOS. Please try again."
    console := LogEntry.sos cause :: st.console }

/-- The promise chain `.then(res => res.json()).then(...).catch(...)`
(lines 87-97) once the fetch has settled. -/
def sosSettled (h : Host) (net : FetchOutcome) (st : Page) : Page :=
  match net with
  | .rejected => sosCatch .network st
  | .response none => sosCatch .decode st
  | .response (some data) =>
    match renderSos h data with
    | some html => { st with status := html }
    | none => sosCatch .render st

/-- The success callback of `getCurrentPosition` (lines 78-97). -/
def onSosPosition (h : Host) (position : Position) (net : FetchOutcome) (st : Page) : Page :=
  let latitude := position.coords.latitude
  let longitude := position.coords.longitude
  sosSettled h net (sendSos h latitude longitude st)

/-- The error callback of `getCurrentPosition` (lines 98-101). -/
def onSosError (err : PositionError) (st : Page) : Page :=
  { st with
    status := "Unable to retrieve your location for SOS."
    console := LogEntry.location err :: st.console }

/-- One click on the SOS button (lines 76-105), followed to the end of the
callbacks it starts. -/
def sosClick (h : Host) (geo : GeoOutcome) (net : FetchOutcome) (st : Page) : Page :=
  if h.geolocation then
    match geo with
    | .success position => onSosPosition h position net st
    | .failure err => onSosError err st
  else
    { st with status := "Geolocation is not supported by your browser." }

end SosJs

/-! ## `static/script.js` -/

namespace ScriptJs

/-- The map, marker variables and status element right after the map is
initialised (lines 2-11). -/
def initial (status0 : String) : Page :=
  { status := status0
    map :=
      { center := ⟨0, 0⟩
        zoom := 13
        layers := [Layer.tile 0 tileUrl "Map data © OpenStreetMap contributors"] }
    marker := none
    accuracyCircle := none
    nextId := 1
    activeWatches := []
    requests := []
    console := [] }

/-- The function `updateMap(lat, lon, accuracy)` (lines 13-30). -/
def updateMap (h : Host) (lat lon accuracy : Rat) (st : Page) : Page :=
  let st : Page :=
    match st.marker with
    | some m => { st with marker := some { m with latlng := ⟨lat, lon⟩ } }
    | none =>
      { st with
        marker := some { id := st.nextId, latlng := ⟨lat, lon⟩ }
        nextId := st.nextId + 1
        map := { st.map with layers := st.map.layers ++ [Layer.marker st.nextId] } }
  let st : Page :=
    match st.accuracyCircle with
    | some c => { st with accuracyCircle := some { c with latlng := ⟨lat, lon⟩, radius := accuracy } }
    | none =>
      { st with
        accuracyCircle :=
          some
            { id := st.nextId
              latlng := ⟨lat, lon⟩
              radius := accuracy
              color := none
              fillColor := none
              fillOpacity := none }
        nextId := st.nextId + 1
        map := { st.map with layers := st.map.layers ++ [Layer.circle st.nextId] } }
  let st : Page := { st with map := { st.map with center := ⟨lat, lon⟩, zoom := 16 } }
  { st with
    status :=
      "Latitude: " ++ toFixed h lat 5 ++ ", Longitude: " ++ toFixed h lon 5 ++
        "<br>\n        Accuracy: ±" ++ toFixed h accuracy 1 ++ "m" }

/-- A sequence of `updateMap` calls, each given as `(lat, lon, accuracy)`. -/
def updateAll (h : Host) (calls : List (Rat × Rat × Rat)) (st : Page) : Page :=
  calls.foldl (fun s a => updateMap h a.1 a.2.1 a.2.2 s) st

/-- The success callback of `watchPosition` (lines 34-36). -/
def onPosition (h : Host) (position : Position) (st : Page) : Page :=
  updateMap h position.coords.latitude position.coords.longitude position.coords.accuracy st

/-- The error callback of `watchPosition` (lines 37-39). -/
def onError (error : PositionError) (st : Page) : Page :=
  { st with status := "Location access error: " ++ error.message }

/-- The page after the `DOMContentLoaded` handler has run (lines 1-44). -/
def load (h : Host) (status0 : String) : Page :=
  if h.geolocation then
    { initial status0 with activeWatches := [h.watchHandle] }
  else
    { initial status0 with status := "Geolocation not supported." }

/-- Delivery of one event by the location source to the tracker subscription. -/
def deliver (h : Host) (ev : GeoEvent) (st : Page) : Page :=
  if watching h st then
    match ev with
    | .position p => onPosition h p st
    | .error e => onError e st
  else st

end ScriptJs

/-! ## Auxiliary facts -/

theorem intercalate_go_eq (sep : String) (as : List String) (acc : String) :
    String.intercalate.go acc sep as = acc ++ sepConcat sep as := by
  induction as generalizing acc with
  | nil => simp [String.intercalate.go, sepConcat]
  | cons a as ih => simp [String.intercalate.go, sepConcat, ih, String.append_assoc]

theorem joinTail_str (h : Host) (sep : String) (cs : List String) :
    joinTail h sep (cs.map Json.str) = some (sepConcat sep cs) := by
  induction cs with
  | nil => simp [joinTail, sepConcat]
  | cons a as ih => simp [joinTail, jsToString, sepConcat, ih, String.append_assoc]

theorem arrayJoin_str (h : Host) (sep : String) (cs : List String) :
    arrayJoin h sep (cs.map Json.str) = some (sep.intercalate cs) := by
  cases cs with
  | nil => simp [arrayJoin, String.intercalate]
  | cons a as =>
    simp [arrayJoin, jsToString, joinTail_str, String.intercalate, intercalate_go_eq]

theorem callJoin_of_not_list (h : Host) (sep : String) (r : Option (Option Json))
    (hr : holdsList r = false) : (r >>= callJoin h sep) = none := by
  match r with
  | none => rfl
  | some none => rfl
  | some (some (.arr _)) => simp [holdsList] at hr
  | some (some .null) => rfl
  | some (some (.bool _)) => rfl
  | some (some (.num _)) => rfl
  | some (some (.str _)) => rfl
  | some (some (.obj _)) => rfl

namespace SosJs

theorem sosSettled_requests (h : Host) (net : FetchOutcome) (st : Page) :
    (sosSettled h net st).requests = st.requests := by
  unfold sosSettled
  split
  · rfl
  · rfl
  · split <;> rfl

theorem renderSos_none_of_not_list (h : Host) (data : Json)
    (hl : holdsList (getProp data "contacts_notified") = false ∨
      holdsList (getProp data "volunteers_notified") = false) :
    renderSos h data = none := by
  unfold renderSos
  cases hm : getProp data "message" with
  | none => rfl
  | some m =>
    cases hms : templateString h m with
    | none => simp [hms]
    | some ms =>
      cases hc : getProp data "contacts_notified" with
      | none => simp [hms]
      | some c =>
        cases hcs : callJoin h ", " c with
        | none => simp [hms, hcs]
        | some cs =>
          have hcl : holdsList (some c) = true := by
            cases hb : holdsList (some c) with
            | true => rfl
            | false =>
              have := callJoin_of_not_list h ", " (some c) hb
              simp [hcs] at this
          cases hv : getProp data "volunteers_notified" with
          | none => simp [hms, hcs]
          | some v =>
            cases hvs : callJoin h ", " v with
            | none => simp [hms, hcs, hvs]
            | some vs =>
              have hvl : holdsList (some v) = true := by
                cases hb : holdsList (some v) with
                | true => rfl
                | false =>
                  have := callJoin_of_not_list h ", " (some v) hb
                  simp [hvs] at this
              rw [hc, hv] at hl
              rcases hl with hl | hl
              · rw [hcl] at hl; cases hl
              · rw [hvl] at hl; cases hl

end SosJs

/-! ## Fixed-point formatting -/

theorem toFixed_of_rounding (h : Host) (x : Rat) (f n : Nat) (h0 : 0 ≤ x)
    (h1 : x < (10 : Rat) ^ 21) (hlo : (n : Rat) ≤ x * (10 : Rat) ^ f + 1 / 2)
    (hhi : x * (10 : Rat) ^ f + 1 / 2 < (n : Rat) + 1) :
    toFixed h x f = fixedNotation n f := by
  have hfl : Rat.floor (x * (10 : Rat) ^ f + 1 / 2) = (n : Int) := by
    show ⌊x * (10 : Rat) ^ f + 1 / 2⌋ = (n : Int)
    rw [Int.floor_eq_iff]
    exact ⟨by exact_mod_cast hlo, by exact_mod_cast hhi⟩
  simp only [toFixed, if_neg (not_lt.mpr h0), if_neg (not_le.mpr h1), hfl, Int.toNat_ofNat]
  exact String.ext (by simp)

theorem digitChar_isDigit (d : Nat) (hd : d < 10) : (Nat.digitChar d).isDigit = true := by
  interval_cases d <;> decide

theorem toDigitsCore_isDigit (fuel n : Nat) (ds : List Char)
    (hds : ∀ c ∈ ds, c.isDigit = true) :
    ∀ c ∈ Nat.toDigitsCore 10 fuel n ds, c.isDigit = true := by
  induction fuel generalizing n ds with
  | zero => simpa [Nat.toDigitsCore] using hds
  | succ fuel ih =>
    have hcons : ∀ c ∈ Nat.digitChar (n % 10) :: ds, c.isDigit = true := by
      intro c hc
      rcases List.mem_cons.mp hc with rfl | hc
      · exact digitChar_isDigit _ (Nat.mod_lt _ (by decide))
      · exact hds c hc
    simp only [Nat.toDigitsCore]
    split
    · exact hcons
    · exact ih _ _ hcons

theorem repr_isDigit (n : Nat) : ∀ c ∈ (Nat.repr n).data, c.isDigit = true := by
  have := toDigitsCore_isDigit (n + 1) n [] (by simp)
  simpa [Nat.repr, Nat.toDigits, List.asString] using this

theorem fixedNotation_shape (n f : Nat) (hf : f ≠ 0) :
    ∃ a b : List Char, (fixedNotation n f).data = a ++ '.' :: b ∧ a ≠ [] ∧ b.length = f ∧
      (∀ c ∈ a, c.isDigit = true) ∧ (∀ c ∈ b, c.isDigit = true) := by
  have hm : ∀ c ∈ (if n = 0 then ['0'] else (Nat.repr n).data), c.isDigit = true := by
    split
    · intro c hc
      rw [List.mem_singleton.mp hc]; decide
    · exact repr_isDigit n
  generalize hmdef : (if n = 0 then ['0'] else (Nat.repr n).data) = m at hm
  generalize hp : (if m.length ≤ f then List.replicate (f + 1 - m.length) '0' ++ m else m) = m2
  generalize hk : (if m.length ≤ f then f + 1 else m.length) = k
  have hlen : m2.length = k ∧ f < k := by
    by_cases hle : m.length ≤ f
    · rw [if_pos hle] at hp hk
      subst hp hk
      simp only [List.length_append, List.length_replicate]
      omega
    · rw [if_neg hle] at hp hk
      subst hp hk
      exact ⟨rfl, by omega⟩
  have hm2 : ∀ c ∈ m2, c.isDigit = true := by
    by_cases hle : m.length ≤ f
    · rw [if_pos hle] at hp
      subst hp
      intro c hc
      rcases List.mem_append.mp hc with hc | hc
      · rw [(List.mem_replicate.mp hc).2]; decide
      · exact hm c hc
    · rw [if_neg hle] at hp
      subst hp
      exact hm
  refine ⟨m2.take (k - f), m2.drop (k - f), ?_, ?_, ?_, ?_, ?_⟩
  · subst hp hk hmdef
    simp only [fixedNotation, hf, ne_eq, not_false_eq_true, if_true]
  · intro hnil
    have := congrArg List.length hnil
    simp only [List.length_take, List.length_nil] at this
    omega
  · simp only [List.length_drop]
    omega
  · intro c hc
    exact hm2 c (List.mem_of_mem_take hc)
  · intro c hc
    exact hm2 c (List.mem_of_mem_drop hc)

theorem toFixed_shape (h : Host) (x : Rat) (f : Nat) (hf : f ≠ 0)
    (hlo : -(10 : Rat) ^ 21 < x) (hhi : x < (10 : Rat) ^ 21) :
    ∃ a b : List Char,
      (toFixed h x f).data = (if x < 0 then ['-'] else []) ++ (a ++ '.' :: b) ∧ a ≠ [] ∧
        b.length = f ∧ (∀ c ∈ a, c.isDigit = true) ∧ (∀ c ∈ b, c.isDigit = true) := by
  have hsmall : ¬ ((10 : Rat) ^ 21 ≤ if x < 0 then -x else x) := by
    split <;> linarith
  obtain ⟨a, b, hab, ha, hb, hda, hdb⟩ :=
    fixedNotation_shape (Rat.floor ((if x < 0 then -x else x) * (10 : Rat) ^ f + 1 / 2)).toNat f hf
  refine ⟨a, b, ?_, ha, hb, hda, hdb⟩
  simp only [toFixed, if_neg hsmall, String.data_append, hab]
  split <;> rfl

theorem span_digits (a rest : List Char) (ha : ∀ c ∈ a, c.isDigit = true) :
    (a ++ '.' :: rest).takeWhile Char.isDigit = a ∧
      (a ++ '.' :: rest).dropWhile Char.isDigit = '.' :: rest := by
  induction a with
  | nil =>
    have hp : Char.isDigit '.' = false := by decide
    simp [List.takeWhile, List.dropWhile, hp]
  | cons c a ih =>
    have hc : c.isDigit = true := ha c (List.mem_cons_self _ _)
    have := ih (fun d hd => ha d (List.mem_cons_of_mem _ hd))
    simp [List.takeWhile, List.dropWhile, hc, this.1, this.2]

theorem isFixedPoint_of_parts (f : Nat) (s : String) (neg : Bool) (a b : List Char)
    (hs : s.data = (if neg then ['-'] else []) ++ (a ++ '.' :: b)) (ha : a ≠ [])
    (hb : b.length = f) (hda : ∀ c ∈ a, c.isDigit = true) (hdb : ∀ c ∈ b, c.isDigit = true) :
    isFixedPoint f s = true := by
  obtain ⟨htake, hdrop⟩ := span_digits a b hda
  have hcs : (if s.data.head? = some '-' then s.data.tail else s.data) = a ++ '.' :: b := by
    cases neg with
    | true => simp [hs]
    | false =>
      cases a with
      | nil => exact absurd rfl ha
      | cons c a =>
        have hc : c.isDigit = true := hda c (List.mem_cons_self _ _)
        have hne : c ≠ '-' := by
          intro hcm
          rw [hcm] at hc
          exact absurd hc (by decide)
        simp [hs, hne]
  have hall : b.all Char.isDigit = true := List.all_eq_true.mpr hdb
  have hane : (a.isEmpty) = false := by
    cases a with
    | nil => exact absurd rfl ha
    | cons c a => rfl
  unfold isFixedPoint
  simp only [hcs, hdrop, htake, hane, hall, hb, Bool.not_false, Bool.and_self, beq_self_eq_true]

theorem toFixed_isFixedPoint (h : Host) (x : Rat) (f : Nat) (hf : f ≠ 0)
    (hlo : -(10 : Rat) ^ 21 < x) (hhi : x < (10 : Rat) ^ 21) :
    isFixedPoint f (toFixed h x f) = true := by
  obtain ⟨a, b, hab, ha, hb, hda, hdb⟩ := toFixed_shape h x f hf hlo hhi
  refine isFixedPoint_of_parts f _ (decide (x < 0)) a b ?_ ha hb hda hdb
  rw [hab]
  by_cases hx : x < 0 <;> simp [hx]

/-! ## Tracker lemmas -/

namespace SosJs

theorem updateMap_activeWatches (h : Host) (lat lon accuracy : Rat) (st : Page) :
    (updateMap h lat lon accuracy st).activeWatches = st.activeWatches := by
  unfold updateMap
  cases st.marker <;> cases st.accuracyCircle <;> rfl

theorem updateMap_status (h : Host) (lat lon accuracy : Rat) (st : Page) :
    (updateMap h lat lon accuracy st).status =
      "Current Location: " ++ toFixed h lat 5 ++ ", " ++ toFixed h lon 5 ++
        "<br>Accuracy: ±" ++ toFixed h accuracy 1 ++ " meters" := by
  unfold updateMap
  cases st.marker <;> cases st.accuracyCircle <;> rfl

theorem updateMap_marker (h : Host) (lat lon accuracy : Rat) (st : Page) :
    (updateMap h lat lon accuracy st).marker =
      some { id := (st.marker.map (fun m => m.id)).getD st.nextId, latlng := ⟨lat, lon⟩ } := by
  unfold updateMap
  cases st.marker <;> cases st.accuracyCircle <;> rfl

theorem updateMap_circle_place (h : Host) (lat lon accuracy : Rat) (st : Page) :
    (updateMap h lat lon accuracy st).accuracyCircle.map (fun c => (c.latlng, c.radius)) =
      some (⟨lat, lon⟩, accuracy) := by
  unfold updateMap
  cases st.marker <;> cases st.accuracyCircle <;> rfl

theorem onPosition_coarse (h : Host) (p : Position) (st : Page)
    (hp : 30 < p.coords.accuracy) :
    onPosition h p st =
      updateMap h p.coords.latitude p.coords.longitude p.coords.accuracy st := by
  simp [onPosition, not_le.mpr hp]

theorem onPosition_fine (h : Host) (p : Position) (st : Page)
    (hp : p.coords.accuracy ≤ 30) :
    onPosition h p st =
      { clearWatch h.watchHandle
          (updateMap h p.coords.latitude p.coords.longitude p.coords.accuracy st) with
        status :=
          (updateMap h p.coords.latitude p.coords.longitude p.coords.accuracy st).status ++
            "<br>Location acquired accurately!" } := by
  simp [onPosition, hp, clearWatch]

theorem onPosition_marker (h : Host) (p : Position) (st : Page) :
    (onPosition h p st).marker =
      (updateMap h p.coords.latitude p.coords.longitude p.coords.accuracy st).marker := by
  unfold onPosition
  simp only []
  split <;> rfl

theorem onPosition_circle (h : Host) (p : Position) (st : Page) :
    (onPosition h p st).accuracyCircle =
      (updateMap h p.coords.latitude p.coords.longitude p.coords.accuracy st).accuracyCircle := by
  unfold onPosition
  simp only []
  split <;> rfl

theorem onPosition_marker_place (h : Host) (p : Position) (st : Page) :
    (onPosition h p st).marker.map (fun m => m.latlng) =
      some ⟨p.coords.latitude, p.coords.longitude⟩ := by
  rw [onPosition_marker, updateMap_marker]
  rfl

theorem onPosition_circle_place (h : Host) (p : Position) (st : Page) :
    (onPosition h p st).accuracyCircle.map (fun c => (c.latlng, c.radius)) =
      some (⟨p.coords.latitude, p.coords.longitude⟩, p.coords.accuracy) := by
  rw [onPosition_circle, updateMap_circle_place]

theorem onPosition_status_coarse (h : Host) (p : Position) (st : Page)
    (hp : 30 < p.coords.accuracy) :
    (onPosition h p st).status =
      "Current Location: " ++ toFixed h p.coords.latitude 5 ++ ", " ++
        toFixed h p.coords.longitude 5 ++ "<br>Accuracy: ±" ++
        toFixed h p.coords.accuracy 1 ++ " meters" := by
  rw [onPosition_coarse h p st hp, updateMap_status]

theorem onPosition_status_fine (h : Host) (p : Position) (st : Page)
    (hp : p.coords.accuracy ≤ 30) :
    (onPosition h p st).status =
      "Current Location: " ++ toFixed h p.coords.latitude 5 ++ ", " ++
        toFixed h p.coords.longitude 5 ++ "<br>Accuracy: ±" ++
        toFixed h p.coords.accuracy 1 ++ " meters" ++ "<br>Location acquired accurately!" := by
  rw [onPosition_fine h p st hp]
  simp only [updateMap_status]

theorem watching_onPosition_coarse (h : Host) (p : Position) (st : Page)
    (hp : 30 < p.coords.accuracy) :
    watching h (onPosition h p st) = watching h st := by
  rw [onPosition_coarse h p st hp]
  simp [watching, updateMap_activeWatches]

theorem watching_onPosition_fine (h : Host) (p : Position) (st : Page)
    (hp : p.coords.accuracy ≤ 30) :
    watching h (onPosition h p st) = false := by
  rw [onPosition_fine h p st hp]
  simp [watching, clearWatch]

theorem onError_eq (e : PositionError) (st : Page) :
    onError e st =
      { st with
        status := errorMessage e.errorClass
        console := LogEntry.location e :: st.console } := by
  unfold onError PositionError.errorClass PositionError.PERMISSION_DENIED
    PositionError.POSITION_UNAVAILABLE PositionError.TIMEOUT
  by_cases h1 : e.code = 1
  · simp [h1, errorMessage]
  · by_cases h2 : e.code = 2
    · simp [h2, errorMessage]
    · by_cases h3 : e.code = 3
      · simp [h3, errorMessage]
      · simp [h1, h2, h3, errorMessage]

theorem deliver_position (h : Host) (p : Position) (st : Page) (hw : watching h st = true) :
    deliver h (GeoEvent.position p) st = onPosition h p st := by
  simp [deliver, hw]

theorem deliver_error (h : Host) (e : PositionError) (st : Page) (hw : watching h st = true) :
    deliver h (GeoEvent.error e) st = onError e st := by
  simp [deliver, hw]

theorem run_nil (h : Host) (st : Page) : run h [] st = st := rfl

theorem run_cons (h : Host) (ev : GeoEvent) (evs : List GeoEvent) (st : Page) :
    run h (ev :: evs) st = run h evs (deliver h ev st) := rfl

theorem run_append (h : Host) (evs evs2 : List GeoEvent) (st : Page) :
    run h (evs ++ evs2) st = run h evs2 (run h evs st) := by
  simp [run, List.foldl_append]

theorem run_of_not_watching (h : Host) (evs : List GeoEvent) (st : Page)
    (hw : watching h st = false) : run h evs st = st := by
  induction evs with
  | nil => rfl
  | cons ev evs ih =>
    rw [run_cons]
    have : deliver h ev st = st := by simp [deliver, hw]
    rw [this, ih]

theorem run_coarse (h : Host) (xs : List Position) (st : Page)
    (hw : watching h st = true) (hxs : ∀ p ∈ xs, 30 < p.coords.accuracy) :
    run h (xs.map GeoEvent.position) st = xs.foldl (fun s p => onPosition h p s) st ∧
      watching h (run h (xs.map GeoEvent.position) st) = true ∧
      (run h (xs.map GeoEvent.position) st).activeWatches = st.activeWatches := by
  induction xs generalizing st with
  | nil => exact ⟨rfl, hw, rfl⟩
  | cons x xs ih =>
    have hx : 30 < x.coords.accuracy := hxs x (List.mem_cons_self _ _)
    have hd : deliver h (GeoEvent.position x) st = onPosition h x st := by
      simp [deliver, hw]
    have hw2 : watching h (onPosition h x st) = true := by
      rw [watching_onPosition_coarse h x st hx]; exact hw
    have ha : (onPosition h x st).activeWatches = st.activeWatches := by
      rw [onPosition_coarse h x st hx, updateMap_activeWatches]
    have := ih (onPosition h x st) hw2 (fun p hp => hxs p (List.mem_cons_of_mem _ hp))
    simp only [List.map_cons, run_cons, hd, List.foldl_cons]
    exact ⟨this.1, this.2.1, this.2.2.trans ha⟩

end SosJs

/-! ## Marker and circle identity -/

namespace SosJs

theorem updateMap_first (h : Host) (lat lon accuracy : Rat) (st : Page)
    (hm : st.marker = none) (hc : st.accuracyCircle = none) :
    (updateMap h lat lon accuracy st).marker = some ⟨st.nextId, ⟨lat, lon⟩⟩ ∧
      (updateMap h lat lon accuracy st).accuracyCircle.map (fun c => c.id) =
        some (st.nextId + 1) ∧
      (updateMap h lat lon accuracy st).map.layers =
        st.map.layers ++ [Layer.marker st.nextId, Layer.circle (st.nextId + 1)] ∧
      (updateMap h lat lon accuracy st).nextId = st.nextId + 2 := by
  unfold updateMap
  simp [hm, hc]

theorem updateMap_later (h : Host) (lat lon accuracy : Rat) (st : Page) (m : Marker)
    (c : Circle) (hm : st.marker = some m) (hc : st.accuracyCircle = some c) :
    (updateMap h lat lon accuracy st).marker = some { m with latlng := ⟨lat, lon⟩ } ∧
      (updateMap h lat lon accuracy st).accuracyCircle =
        some { c with latlng := ⟨lat, lon⟩, radius := accuracy } ∧
      (updateMap h lat lon accuracy st).map.layers = st.map.layers ∧
      (updateMap h lat lon accuracy st).nextId = st.nextId := by
  unfold updateMap
  simp [hm, hc]

theorem updateAll_later (h : Host) (calls : List (Rat × Rat × Rat)) (st : Page) (m : Marker)
    (c : Circle) (hm : st.marker = some m) (hc : st.accuracyCircle = some c) :
    (updateAll h calls st).marker.map (fun m => m.id) = some m.id ∧
      (updateAll h calls st).accuracyCircle.map (fun c => c.id) = some c.id ∧
      (updateAll h calls st).map.layers = st.map.layers ∧
      (updateAll h calls st).nextId = st.nextId := by
  induction calls generalizing st m c with
  | nil => simp [updateAll, hm, hc]
  | cons a calls ih =>
    obtain ⟨h1, h2, h3, h4⟩ := updateMap_later h a.1 a.2.1 a.2.2 st m c hm hc
    have := ih (updateMap h a.1 a.2.1 a.2.2 st) _ _ h1 h2
    simp only [updateAll, List.foldl_cons] at this ⊢
    simpa [h3, h4] using this

end SosJs

namespace ScriptJs

theorem updateMap_creates (h : Host) (lat lon accuracy : Rat) (st : Page)
    (hm : st.marker = none) (hc : st.accuracyCircle = none) :
    (updateMap h lat lon accuracy st).marker = some ⟨st.nextId, ⟨lat, lon⟩⟩ ∧
      (updateMap h lat lon accuracy st).accuracyCircle.map (fun c => c.id) =
        some (st.nextId + 1) ∧
      (updateMap h lat lon accuracy st).map.layers =
        st.map.layers ++ [Layer.marker st.nextId, Layer.circle (st.nextId + 1)] ∧
      (updateMap h lat lon accuracy st).nextId = st.nextId + 2 := by
  unfold updateMap
  simp [hm, hc]

theorem updateMap_mutates (h : Host) (lat lon accuracy : Rat) (st : Page) (m : Marker)
    (c : Circle) (hm : st.marker = some m) (hc : st.accuracyCircle = some c) :
    (updateMap h lat lon accuracy st).marker = some { m with latlng := ⟨lat, lon⟩ } ∧
      (updateMap h lat lon accuracy st).accuracyCircle =
        some { c with latlng := ⟨lat, lon⟩, radius := accuracy } ∧
      (updateMap h lat lon accuracy st).map.layers = st.map.layers ∧
      (updateMap h lat lon accuracy st).nextId = st.nextId := by
  unfold updateMap
  simp [hm, hc]

theorem updateAll_keeps (h : Host) (calls : List (Rat × Rat × Rat)) (st : Page) (m : Marker)
    (c : Circle) (hm : st.marker = some m) (hc : st.accuracyCircle = some c) :
    (updateAll h calls st).marker.map (fun m => m.id) = some m.id ∧
      (updateAll h calls st).accuracyCircle.map (fun c => c.id) = some c.id ∧
      (updateAll h calls st).map.layers = st.map.layers ∧
      (updateAll h calls st).nextId = st.nextId := by
  induction calls generalizing st m c with
  | nil => simp [updateAll, hm, hc]
  | cons a calls ih =>
    obtain ⟨h1, h2, h3, h4⟩ := updateMap_mutates h a.1 a.2.1 a.2.2 st m c hm hc
    have := ih (updateMap h a.1 a.2.1 a.2.2 st) _ _ h1 h2
    simp only [updateAll, List.foldl_cons] at this ⊢
    simpa [h3, h4] using this

end ScriptJs

theorem SosJs.load_fresh (h : Host) (status0 : String) :
    (SosJs.load h status0).marker = none ∧ (SosJs.load h status0).accuracyCircle = none ∧
      (SosJs.load h status0).nextId = 1 ∧
      markerCount (SosJs.load h status0).map = 0 ∧ circleCount (SosJs.load h status0).map = 0 := by
  unfold SosJs.load
  split <;> simp [SosJs.initial, markerCount, circleCount]

theorem ScriptJs.load_starts_empty (h : Host) (status0 : String) :
    (ScriptJs.load h status0).marker = none ∧ (ScriptJs.load h status0).accuracyCircle = none ∧
      (ScriptJs.load h status0).nextId = 1 ∧
      markerCount (ScriptJs.load h status0).map = 0 ∧
      circleCount (ScriptJs.load h status0).map = 0 := by
  unfold ScriptJs.load
  split <;> simp [ScriptJs.initial, markerCount, circleCount]

/-! ## SOS dispatcher (`static/js/sos.js`) -/

/-- C1: a click on the SOS button with a supported location source and a
successful `getCurrentPosition` sample adds exactly one request to those sent
before: a POST to `/sos` with header `Content-Type: application/json` whose body
is the JSON text of the object with the two fields `latitude` and `longitude` of
that sample, whatever the page state (and the tracker's marker) was. -/
theorem sos_click_sends_one_request (h : Host) (st : Page) (position : Position)
    (net : SosJs.FetchOutcome) (hgeo : h.geolocation = true) :
    (SosJs.sosClick h (.success position) net st).requests =
        st.requests ++
          [{ url := "/sos"
             method := "POST"
             headers := [("Content-Type", "application/json")]
             body :=
               JSON_stringify h
                 (.obj [("latitude", .num position.coords.latitude),
                        ("longitude", .num position.coords.longitude)]) }] ∧
      JSON_stringify h
          (.obj [("latitude", .num position.coords.latitude),
                 ("longitude", .num position.coords.longitude)]) =
        "\x7b\"latitude\":" ++ h.numberToString position.coords.latitude ++
          ",\"longitude\":" ++ h.numberToString position.coords.longitude ++ "\x7d" := by
  constructor
  · simp [SosJs.sosClick, hgeo, SosJs.onSosPosition, SosJs.sosSettled_requests, SosJs.sendSos]
  · simp only [JSON_stringify, stringifyFields]
    have hq1 : quoteJSONString "latitude" = "\"latitude\"" := by decide
    have hq2 : quoteJSONString "longitude" = "\"longitude\"" := by decide
    rw [hq1, hq2]
    simp [String.append_assoc]

theorem sos_click_sends_one_request_witness :
    (SosJs.sosClick browser (.success ⟨⟨12, 77, 40⟩⟩) .rejected
          (SosJs.updateMap browser 1 2 3 (SosJs.load browser ""))).requests =
        [{ url := "/sos"
           method := "POST"
           headers := [("Content-Type", "application/json")]
           body := "\x7b\"latitude\":12,\"longitude\":77\x7d" }] := by
  have key := sos_click_sends_one_request browser
    (SosJs.updateMap browser 1 2 3 (SosJs.load browser "")) ⟨⟨12, 77, 40⟩⟩ .rejected rfl
  rw [key.1, key.2]
  simp [SosJs.updateMap, SosJs.load, SosJs.initial, browser]
  decide

/-- C2: when the response decodes to a value whose `message` is the string `m`,
whose `contacts_notified` and `volunteers_notified` are the string lists `cs`
and `vs` and whose `area_safe` is the boolean `b`, the success handler replaces
the whole status text, whatever it was, by the template: `m` inside
`<b>...</b>`, then `cs` joined with `", "`, then `vs` joined with `", "` (the
empty string for the empty list), then `true` or `false`. -/
theorem sos_success_rendering (h : Host) (st : Page) (data : Json) (m : String)
    (cs vs : List String) (b : Bool)
    (hm : getProp data "message" = some (some (.str m)))
    (hc : getProp data "contacts_notified" = some (some (.arr (cs.map Json.str))))
    (hv : getProp data "volunteers_notified" = some (some (.arr (vs.map Json.str))))
    (hb : getProp data "area_safe" = some (some (.bool b))) :
    (SosJs.sosSettled h (.response (some data)) st).status =
      "<b>" ++ m ++ "</b><br>\n                    <strong>Contacts notified:</strong> " ++
        ", ".intercalate cs ++ "<br>\n                    <strong>Nearby volunteers:</strong> " ++
        ", ".intercalate vs ++ "<br>\n                    <strong>Area safe:</strong> " ++
        (if b then "true" else "false") := by
  have hr : SosJs.renderSos h data =
      some ("<b>" ++ m ++ "</b><br>\n                    <strong>Contacts notified:</strong> " ++
        ", ".intercalate cs ++ "<br>\n                    <strong>Nearby volunteers:</strong> " ++
        ", ".intercalate vs ++ "<br>\n                    <strong>Area safe:</strong> " ++
        (if b then "true" else "false")) := by
    simp [SosJs.renderSos, hm, hc, hv, hb, templateString, jsToString, callJoin, arrayJoin_str]
  simp [SosJs.sosSettled, hr]

theorem sos_success_rendering_witness :
    (SosJs.sosSettled browser
        (.response (some (.obj [("message", .str "OK"),
          ("contacts_notified", .arr [.str "A", .str "B"]),
          ("volunteers_notified", .arr []), ("area_safe", .bool true)])))
        (SosJs.load browser "Locating...")).status =
      "<b>OK</b><br>\n                    <strong>Contacts notified:</strong> A, B<br>\n                    <strong>Nearby volunteers:</strong> <br>\n                    <strong>Area safe:</strong> true" :=
  (sos_success_rendering browser (SosJs.load browser "Locating...")
    (.obj [("message", .str "OK"), ("contacts_notified", .arr [.str "A", .str "B"]),
      ("volunteers_notified", .arr []), ("area_safe", .bool true)])
    "OK" ["A", "B"] [] true rfl rfl rfl rfl).trans (by rfl)

/-- C3: a click on the SOS button sends no request unless a location sample was
obtained.  Without a location source the status becomes exactly
`Geolocation is not supported by your browser.`; when `getCurrentPosition`
reports an error, whichever it is, the status becomes exactly
`Unable to retrieve your location for SOS.`; in both cases the requests sent are
those sent before the click. -/
theorem sos_click_without_sample (h : Host) (st : Page) (geo : SosJs.GeoOutcome)
    (err : PositionError) (net : SosJs.FetchOutcome) :
    (h.geolocation = false →
        (SosJs.sosClick h geo net st).status = "Geolocation is not supported by your browser." ∧
          (SosJs.sosClick h geo net st).requests = st.requests) ∧
      (h.geolocation = true →
        (SosJs.sosClick h (.failure err) net st).status =
            "Unable to retrieve your location for SOS." ∧
          (SosJs.sosClick h (.failure err) net st).requests = st.requests) := by
  constructor
  · intro hgeo
    simp [SosJs.sosClick, hgeo]
  · intro hgeo
    simp [SosJs.sosClick, hgeo, SosJs.onSosError]

theorem sos_click_without_sample_witness :
    ((SosJs.sosClick legacyBrowser (.success ⟨⟨12, 77, 40⟩⟩) (.response none)
            (SosJs.load legacyBrowser "")).status =
          "Geolocation is not supported by your browser." ∧
        (SosJs.sosClick legacyBrowser (.success ⟨⟨12, 77, 40⟩⟩) (.response none)
            (SosJs.load legacyBrowser "")).requests = (SosJs.load legacyBrowser "").requests) ∧
      ((SosJs.sosClick browser (.failure ⟨3, "Timeout expired"⟩) (.response none)
            (SosJs.load browser "")).status =
          "Unable to retrieve your location for SOS." ∧
        (SosJs.sosClick browser (.failure ⟨3, "Timeout expired"⟩) (.response none)
            (SosJs.load browser "")).requests = (SosJs.load browser "").requests) :=
  ⟨(sos_click_without_sample legacyBrowser (SosJs.load legacyBrowser "")
      (.success ⟨⟨12, 77, 40⟩⟩) ⟨3, "Timeout expired"⟩ (.response none)).1 rfl,
    (sos_click_without_sample browser (SosJs.load browser "")
      (.success ⟨⟨12, 77, 40⟩⟩) ⟨3, "Timeout expired"⟩ (.response none)).2 rfl⟩

/-- C4: after the request of a click has been sent, every failure (the fetch
promise rejects, the body does not parse as JSON, or the parsed value has no
`contacts_notified` list or no `volunteers_notified` list, so that rendering
throws) leaves the status text exactly `Error sending SOS. Please try again.`,
whatever the text was before, and the requests sent are those sent before the
click plus the one request of the click. -/
theorem sos_failure_rendering (h : Host) (st : Page) (position : Position)
    (net : SosJs.FetchOutcome) (hgeo : h.geolocation = true)
    (hfail : net = .rejected ∨ net = .response none ∨
      ∃ data, net = .response (some data) ∧
        (holdsList (getProp data "contacts_notified") = false ∨
          holdsList (getProp data "volunteers_notified") = false)) :
    (SosJs.sosClick h (.success position) net st).status =
        "Error sending SOS. Please try again." ∧
      (SosJs.sosClick h (.success position) net st).requests =
        st.requests ++
          [{ url := "/sos"
             method := "POST"
             headers := [("Content-Type", "application/json")]
             body :=
               JSON_stringify h
                 (.obj [("latitude", .num position.coords.latitude),
                        ("longitude", .num position.coords.longitude)]) }] := by
  refine ⟨?_, ?_⟩
  · rcases hfail with hn | hn | ⟨data, hn, hl⟩
    · simp [SosJs.sosClick, hgeo, SosJs.onSosPosition, hn, SosJs.sosSettled, SosJs.sosCatch]
    · simp [SosJs.sosClick, hgeo, SosJs.onSosPosition, hn, SosJs.sosSettled, SosJs.sosCatch]
    · simp [SosJs.sosClick, hgeo, SosJs.onSosPosition, hn, SosJs.sosSettled,
        SosJs.renderSos_none_of_not_list h data hl, SosJs.sosCatch]
  · simp [SosJs.sosClick, hgeo, SosJs.onSosPosition, SosJs.sosSettled_requests, SosJs.sendSos]

theorem sos_failure_rendering_witness :
    (SosJs.sosClick browser (.success ⟨⟨12, 77, 40⟩⟩)
          (.response (some (.obj [("message", .str "OK"), ("area_safe", .bool true)])))
          (SosJs.onPosition browser ⟨⟨12, 77, 40⟩⟩ (SosJs.load browser ""))).status =
        "Error sending SOS. Please try again." :=
  (sos_failure_rendering browser (SosJs.onPosition browser ⟨⟨12, 77, 40⟩⟩ (SosJs.load browser ""))
    ⟨⟨12, 77, 40⟩⟩ (.response (some (.obj [("message", .str "OK"), ("area_safe", .bool true)])))
    rfl (Or.inr (Or.inr ⟨_, rfl, Or.inl (by decide)⟩))).1

/-! ## Position tracker -/

/-- C5: for samples delivered to the subscribed tracker of `static/js/sos.js`,
the subscription is cancelled (`clearWatch` on the watch handle) on the first
sample whose accuracy is at most 30, 30 included: the tracker is still
subscribed after the coarser samples before it, that sample is processed (the
marker and the circle stand at it and the status text is its coordinate line
with the notice), the handle is removed by it, and later samples change
nothing, so marker and status stay those of that sample.  When every sample has
accuracy above 30 the tracker stays subscribed and each sample is processed:
right after it is delivered the marker and the circle stand at it and the
status text is its coordinate line. -/
theorem tracker_stop_condition (h : Host) (st : Page) (hw : watching h st = true) :
    (∀ (pre : List Position) (x : Position) (post : List Position),
        (∀ p ∈ pre, 30 < p.coords.accuracy) → x.coords.accuracy ≤ 30 →
          watching h (SosJs.run h (pre.map GeoEvent.position) st) = true ∧
            SosJs.run h ((pre ++ [x]).map GeoEvent.position) st =
              SosJs.onPosition h x (pre.foldl (fun s p => SosJs.onPosition h p s) st) ∧
            (SosJs.run h ((pre ++ [x]).map GeoEvent.position) st).activeWatches =
              st.activeWatches.filter (fun w => w ≠ h.watchHandle) ∧
            watching h (SosJs.run h ((pre ++ [x]).map GeoEvent.position) st) = false ∧
            SosJs.run h ((pre ++ x :: post).map GeoEvent.position) st =
              SosJs.run h ((pre ++ [x]).map GeoEvent.position) st ∧
            (SosJs.run h ((pre ++ x :: post).map GeoEvent.position) st).marker.map
                (fun m => m.latlng) = some ⟨x.coords.latitude, x.coords.longitude⟩ ∧
            (SosJs.run h ((pre ++ x :: post).map GeoEvent.position) st).accuracyCircle.map
                (fun c => (c.latlng, c.radius)) =
              some (⟨x.coords.latitude, x.coords.longitude⟩, x.coords.accuracy) ∧
            (SosJs.run h ((pre ++ x :: post).map GeoEvent.position) st).status =
              "Current Location: " ++ toFixed h x.coords.latitude 5 ++ ", " ++
                toFixed h x.coords.longitude 5 ++ "<br>Accuracy: ±" ++
                toFixed h x.coords.accuracy 1 ++ " meters" ++
                "<br>Location acquired accurately!") ∧
      (∀ xs : List Position, (∀ p ∈ xs, 30 < p.coords.accuracy) →
          watching h (SosJs.run h (xs.map GeoEvent.position) st) = true ∧
            SosJs.run h (xs.map GeoEvent.position) st =
              xs.foldl (fun s p => SosJs.onPosition h p s) st) ∧
      (∀ (ys : List Position) (y : Position) (zs : List Position),
        (∀ p ∈ ys ++ y :: zs, 30 < p.coords.accuracy) →
          (SosJs.run h ((ys ++ [y]).map GeoEvent.position) st).marker.map
              (fun m => m.latlng) = some ⟨y.coords.latitude, y.coords.longitude⟩ ∧
            (SosJs.run h ((ys ++ [y]).map GeoEvent.position) st).accuracyCircle.map
                (fun c => (c.latlng, c.radius)) =
              some (⟨y.coords.latitude, y.coords.longitude⟩, y.coords.accuracy) ∧
            (SosJs.run h ((ys ++ [y]).map GeoEvent.position) st).status =
              "Current Location: " ++ toFixed h y.coords.latitude 5 ++ ", " ++
                toFixed h y.coords.longitude 5 ++ "<br>Accuracy: ±" ++
                toFixed h y.coords.accuracy 1 ++ " meters") := by
  have hnext : ∀ (pre : List Position) (x : Position),
      (∀ p ∈ pre, 30 < p.coords.accuracy) →
        SosJs.run h ((pre ++ [x]).map GeoEvent.position) st =
          SosJs.onPosition h x (pre.foldl (fun s p => SosJs.onPosition h p s) st) := by
    intro pre x hpre
    obtain ⟨hrun, hwpre, _⟩ := SosJs.run_coarse h pre st hw hpre
    rw [List.map_append, SosJs.run_append, List.map_cons, List.map_nil, SosJs.run_cons,
      SosJs.run_nil, SosJs.deliver_position h x _ hwpre, hrun]
  refine ⟨?_, ?_, ?_⟩
  · intro pre x post hpre hx
    obtain ⟨hrun, hwpre, hact⟩ := SosJs.run_coarse h pre st hw hpre
    have hstep := hnext pre x hpre
    have hoff : watching h (SosJs.run h ((pre ++ [x]).map GeoEvent.position) st) = false := by
      rw [hstep]; exact SosJs.watching_onPosition_fine h x _ hx
    have hlast : SosJs.run h ((pre ++ x :: post).map GeoEvent.position) st =
        SosJs.run h ((pre ++ [x]).map GeoEvent.position) st := by
      have hsplit : (pre ++ x :: post).map GeoEvent.position =
          (pre ++ [x]).map GeoEvent.position ++ post.map GeoEvent.position := by
        simp
      rw [hsplit, SosJs.run_append, SosJs.run_of_not_watching h _ _ hoff]
    refine ⟨hwpre, hstep, ?_, hoff, hlast, ?_, ?_, ?_⟩
    · rw [hstep, SosJs.onPosition_fine h x _ hx]
      simp only [clearWatch, SosJs.updateMap_activeWatches]
      rw [← hrun, hact]
    · rw [hlast, hstep, SosJs.onPosition_marker_place]
    · rw [hlast, hstep, SosJs.onPosition_circle_place]
    · rw [hlast, hstep, SosJs.onPosition_status_fine h x _ hx]
  · intro xs hxs
    obtain ⟨hrun, hwxs, _⟩ := SosJs.run_coarse h xs st hw hxs
    exact ⟨hwxs, hrun⟩
  · intro ys y zs hall
    have hys : ∀ p ∈ ys, 30 < p.coords.accuracy := fun p hp =>
      hall p (List.mem_append_left _ hp)
    have hy : 30 < y.coords.accuracy :=
      hall y (List.mem_append_right _ (List.mem_cons_self _ _))
    have hstep := hnext ys y hys
    refine ⟨?_, ?_, ?_⟩
    · rw [hstep, SosJs.onPosition_marker_place]
    · rw [hstep, SosJs.onPosition_circle_place]
    · rw [hstep, SosJs.onPosition_status_coarse h y _ hy]

theorem tracker_stop_condition_witness :
    (watching browser
          (SosJs.run browser
            (([Position.mk ⟨12, 77, 65⟩, Position.mk ⟨12, 77, 31⟩] ++
              [Position.mk ⟨12, 77, 30⟩]).map GeoEvent.position) (SosJs.load browser "")) =
          false ∧
        (SosJs.run browser
            (([Position.mk ⟨12, 77, 65⟩, Position.mk ⟨12, 77, 31⟩] ++ Position.mk ⟨12, 77, 30⟩ ::
              [Position.mk ⟨13, 78, 5⟩]).map GeoEvent.position)
            (SosJs.load browser "")).marker.map (fun m => m.latlng) = some ⟨12, 77⟩) ∧
      watching browser
          (SosJs.run browser
            ([Position.mk ⟨12, 77, 65⟩, Position.mk ⟨12, 77, 31⟩].map GeoEvent.position)
            (SosJs.load browser "")) = true ∧
      (SosJs.run browser
          (([Position.mk ⟨12, 77, 65⟩] ++ [Position.mk ⟨14, 79, 31⟩]).map GeoEvent.position)
          (SosJs.load browser "")).marker.map (fun m => m.latlng) = some ⟨14, 79⟩ :=
  ⟨⟨((tracker_stop_condition browser (SosJs.load browser "") (by decide)).1
        [Position.mk ⟨12, 77, 65⟩, Position.mk ⟨12, 77, 31⟩] (Position.mk ⟨12, 77, 30⟩)
        [Position.mk ⟨13, 78, 5⟩] (by simp; norm_num) (by norm_num)).2.2.2.1,
      ((tracker_stop_condition browser (SosJs.load browser "") (by decide)).1
        [Position.mk ⟨12, 77, 65⟩, Position.mk ⟨12, 77, 31⟩] (Position.mk ⟨12, 77, 30⟩)
        [Position.mk ⟨13, 78, 5⟩] (by simp; norm_num) (by norm_num)).2.2.2.2.2.1⟩,
    ((tracker_stop_condition browser (SosJs.load browser "") (by decide)).2.1
      [Position.mk ⟨12, 77, 65⟩, Position.mk ⟨12, 77, 31⟩] (by simp; norm_num)).1,
    ((tracker_stop_condition browser (SosJs.load browser "") (by decide)).2.2
      [Position.mk ⟨12, 77, 65⟩] (Position.mk ⟨14, 79, 31⟩) [] (by simp; norm_num)).1⟩

/-- C6, as the script has it: right after the tracker of `static/js/sos.js`
handles a sample `(lat, lon, acc)` whose three numbers are below `10^21` in
magnitude, the status text holds `lat` and `lon` in fixed-point notation with
exactly 5 decimal places and `acc` with exactly 1 decimal place; it is
`Current Location: <lat5>, <lon5><br>Accuracy: ±<acc1> meters` when `acc > 30`
and that same line followed by `<br>Location acquired accurately!` when
`acc ≤ 30`; the text before the sample plays no part. -/
theorem tracker_status_text (h : Host) (st : Page) (p : Position)
    (hlat : -(10 : Rat) ^ 21 < p.coords.latitude ∧ p.coords.latitude < (10 : Rat) ^ 21)
    (hlon : -(10 : Rat) ^ 21 < p.coords.longitude ∧ p.coords.longitude < (10 : Rat) ^ 21)
    (hacc : -(10 : Rat) ^ 21 < p.coords.accuracy ∧ p.coords.accuracy < (10 : Rat) ^ 21) :
    (30 < p.coords.accuracy →
        (SosJs.onPosition h p st).status =
          "Current Location: " ++ toFixed h p.coords.latitude 5 ++ ", " ++
            toFixed h p.coords.longitude 5 ++ "<br>Accuracy: ±" ++
            toFixed h p.coords.accuracy 1 ++ " meters") ∧
      (p.coords.accuracy ≤ 30 →
        (SosJs.onPosition h p st).status =
          "Current Location: " ++ toFixed h p.coords.latitude 5 ++ ", " ++
            toFixed h p.coords.longitude 5 ++ "<br>Accuracy: ±" ++
            toFixed h p.coords.accuracy 1 ++ " meters" ++ "<br>Location acquired accurately!") ∧
      isFixedPoint 5 (toFixed h p.coords.latitude 5) = true ∧
      isFixedPoint 5 (toFixed h p.coords.longitude 5) = true ∧
      isFixedPoint 1 (toFixed h p.coords.accuracy 1) = true :=
  ⟨SosJs.onPosition_status_coarse h p st, SosJs.onPosition_status_fine h p st,
    toFixed_isFixedPoint h _ 5 (by decide) hlat.1 hlat.2,
    toFixed_isFixedPoint h _ 5 (by decide) hlon.1 hlon.2,
    toFixed_isFixedPoint h _ 1 (by decide) hacc.1 hacc.2⟩

theorem tracker_status_text_witness :
    (SosJs.onPosition browser ⟨⟨12, 77, 65⟩⟩ (SosJs.load browser "Locating...")).status =
        "Current Location: 12.00000, 77.00000<br>Accuracy: ±65.0 meters" ∧
      (SosJs.onPosition browser ⟨⟨12, 77, 30⟩⟩ (SosJs.load browser "Locating...")).status =
        "Current Location: 12.00000, 77.00000<br>Accuracy: ±30.0 meters<br>Location acquired accurately!" ∧
      isFixedPoint 1 (toFixed browser 65 1) = true := by
  have h12 : toFixed browser 12 5 = "12.00000" := by
    rw [toFixed_of_rounding browser 12 5 1200000 (by norm_num) (by norm_num) (by norm_num)
      (by norm_num)]
    decide
  have h77 : toFixed browser 77 5 = "77.00000" := by
    rw [toFixed_of_rounding browser 77 5 7700000 (by norm_num) (by norm_num) (by norm_num)
      (by norm_num)]
    decide
  have h65 : toFixed browser 65 1 = "65.0" := by
    rw [toFixed_of_rounding browser 65 1 650 (by norm_num) (by norm_num) (by norm_num)
      (by norm_num)]
    decide
  have h30 : toFixed browser 30 1 = "30.0" := by
    rw [toFixed_of_rounding browser 30 1 300 (by norm_num) (by norm_num) (by norm_num)
      (by norm_num)]
    decide
  refine ⟨?_, ?_, ?_⟩
  · refine ((tracker_status_text browser (SosJs.load browser "Locating...") ⟨⟨12, 77, 65⟩⟩
      (by norm_num) (by norm_num) (by norm_num)).1 (by norm_num)).trans ?_
    simp only [h12, h77, h65]
    decide
  · refine ((tracker_status_text browser (SosJs.load browser "Locating...") ⟨⟨12, 77, 30⟩⟩
      (by norm_num) (by norm_num) (by norm_num)).2.1 (by norm_num)).trans ?_
    simp only [h12, h77, h30]
    decide
  · exact (tracker_status_text browser (SosJs.load browser "Locating...") ⟨⟨12, 77, 65⟩⟩
      (by norm_num) (by norm_num) (by norm_num)).2.2.2.2

/-- C6 as stated fails: for a sample of accuracy `10^21` the built-in `toFixed`
hands the number to `Number::toString`, the status text reads
`Accuracy: ±1e+21 meters`, and `1e+21` is not fixed-point notation with one
decimal place. -/
theorem huge_accuracy_has_no_decimal_place :
    (SosJs.onPosition exponentBrowser ⟨⟨12, 77, (10 : Rat) ^ 21⟩⟩
          (SosJs.load exponentBrowser "")).status =
        "Current Location: 12.00000, 77.00000<br>Accuracy: ±1e+21 meters" ∧
      toFixed exponentBrowser ((10 : Rat) ^ 21) 1 = "1e+21" ∧
      isFixedPoint 1 (toFixed exponentBrowser ((10 : Rat) ^ 21) 1) = false := by
  have h12 : toFixed exponentBrowser 12 5 = "12.00000" := by
    rw [toFixed_of_rounding exponentBrowser 12 5 1200000 (by norm_num) (by norm_num)
      (by norm_num) (by norm_num)]
    decide
  have h77 : toFixed exponentBrowser 77 5 = "77.00000" := by
    rw [toFixed_of_rounding exponentBrowser 77 5 7700000 (by norm_num) (by norm_num)
      (by norm_num) (by norm_num)]
    decide
  have hbig : toFixed exponentBrowser ((10 : Rat) ^ 21) 1 = "1e+21" := by
    have hpos : ¬ ((10 : Rat) ^ 21 < 0) := by norm_num
    simp only [toFixed, if_neg hpos, le_refl, if_true, exponentBrowser]
    decide
  have hcoarse : (30 : Rat) < (Position.mk ⟨12, 77, (10 : Rat) ^ 21⟩).coords.accuracy := by
    norm_num
  refine ⟨?_, hbig, ?_⟩
  · rw [SosJs.onPosition_status_coarse _ _ _ hcoarse]
    simp only [h12, h77, hbig]
    decide
  · rw [hbig]
    decide

/-- C7: whenever a sample reaches the subscribed tracker of `static/js/sos.js`,
after any samples delivered before it, the marker then stands at the latitude
and longitude of that sample, the accuracy circle is centred there, and the
radius of the circle is the accuracy of that sample, whether marker and circle
existed before or are created by this update. -/
theorem map_shows_latest_sample (h : Host) (st : Page) (xs : List Position) (x : Position)
    (hw : watching h (SosJs.run h (xs.map GeoEvent.position) st) = true) :
    (SosJs.run h ((xs ++ [x]).map GeoEvent.position) st).marker.map (fun m => m.latlng) =
        some ⟨x.coords.latitude, x.coords.longitude⟩ ∧
      (SosJs.run h ((xs ++ [x]).map GeoEvent.position) st).accuracyCircle.map
          (fun c => c.latlng) = some ⟨x.coords.latitude, x.coords.longitude⟩ ∧
      (SosJs.run h ((xs ++ [x]).map GeoEvent.position) st).accuracyCircle.map
          (fun c => c.radius) = some x.coords.accuracy := by
  have hstep : SosJs.run h ((xs ++ [x]).map GeoEvent.position) st =
      SosJs.onPosition h x (SosJs.run h (xs.map GeoEvent.position) st) := by
    rw [List.map_append, SosJs.run_append, List.map_cons, List.map_nil, SosJs.run_cons,
      SosJs.run_nil]
    simp [SosJs.deliver, hw]
  have hc := SosJs.updateMap_circle_place h x.coords.latitude x.coords.longitude
    x.coords.accuracy (SosJs.run h (xs.map GeoEvent.position) st)
  rw [hstep, SosJs.onPosition_marker, SosJs.onPosition_circle, SosJs.updateMap_marker]
  refine ⟨rfl, ?_, ?_⟩
  · cases hcc : (SosJs.updateMap h x.coords.latitude x.coords.longitude x.coords.accuracy
        (SosJs.run h (xs.map GeoEvent.position) st)).accuracyCircle with
    | none => simp [hcc] at hc
    | some c =>
      simp only [hcc, Option.map_some', Option.some.injEq, Prod.mk.injEq] at hc
      simp [hc.1]
  · cases hcc : (SosJs.updateMap h x.coords.latitude x.coords.longitude x.coords.accuracy
        (SosJs.run h (xs.map GeoEvent.position) st)).accuracyCircle with
    | none => simp [hcc] at hc
    | some c =>
      simp only [hcc, Option.map_some', Option.some.injEq, Prod.mk.injEq] at hc
      simp [hc.2]

theorem map_shows_latest_sample_witness :
    (SosJs.run browser
        (([Position.mk ⟨12, 77, 65⟩] ++ [Position.mk ⟨13, 78, 31⟩]).map GeoEvent.position)
        (SosJs.load browser "")).marker.map (fun m => m.latlng) = some ⟨13, 78⟩ :=
  (map_shows_latest_sample browser (SosJs.load browser "") [Position.mk ⟨12, 77, 65⟩]
    (Position.mk ⟨13, 78, 31⟩)
    (SosJs.run_coarse browser [Position.mk ⟨12, 77, 65⟩] (SosJs.load browser "") (by decide)
      (by simp; norm_num)).2.1).1

/-- C8: in both scripts the page starts with no marker and no circle; the first
`updateMap` call creates the marker (identity 1) and the accuracy circle
(identity 2); after any further calls, repeated arguments included, the marker
variable still holds the object of identity 1 and the circle variable the object
of identity 2, the map carries exactly one marker layer and one circle layer,
and no further object has been created (the next free identity stays 3). -/
theorem marker_identity (h : Host) (status0 : String) (first : Rat × Rat × Rat)
    (rest : List (Rat × Rat × Rat)) :
    ((SosJs.load h status0).marker = none ∧ (SosJs.load h status0).accuracyCircle = none ∧
        markerCount (SosJs.load h status0).map = 0 ∧
        circleCount (SosJs.load h status0).map = 0 ∧
        (SosJs.updateAll h (first :: rest) (SosJs.load h status0)).marker.map (fun m => m.id) =
          some 1 ∧
        (SosJs.updateAll h (first :: rest) (SosJs.load h status0)).accuracyCircle.map
            (fun c => c.id) = some 2 ∧
        markerCount (SosJs.updateAll h (first :: rest) (SosJs.load h status0)).map = 1 ∧
        circleCount (SosJs.updateAll h (first :: rest) (SosJs.load h status0)).map = 1 ∧
        (SosJs.updateAll h (first :: rest) (SosJs.load h status0)).nextId = 3) ∧
      ((ScriptJs.load h status0).marker = none ∧
        (ScriptJs.load h status0).accuracyCircle = none ∧
        markerCount (ScriptJs.load h status0).map = 0 ∧
        circleCount (ScriptJs.load h status0).map = 0 ∧
        (ScriptJs.updateAll h (first :: rest) (ScriptJs.load h status0)).marker.map
            (fun m => m.id) = some 1 ∧
        (ScriptJs.updateAll h (first :: rest) (ScriptJs.load h status0)).accuracyCircle.map
            (fun c => c.id) = some 2 ∧
        markerCount (ScriptJs.updateAll h (first :: rest) (ScriptJs.load h status0)).map = 1 ∧
        circleCount (ScriptJs.updateAll h (first :: rest) (ScriptJs.load h status0)).map = 1 ∧
        (ScriptJs.updateAll h (first :: rest) (ScriptJs.load h status0)).nextId = 3) := by
  constructor
  · obtain ⟨hm, hc, hn, hmc, hcc⟩ := SosJs.load_fresh h status0
    obtain ⟨f1, f2, f3, f4⟩ :=
      SosJs.updateMap_first h first.1 first.2.1 first.2.2 (SosJs.load h status0) hm hc
    cases hcirc : (SosJs.updateMap h first.1 first.2.1 first.2.2
        (SosJs.load h status0)).accuracyCircle with
    | none => simp [hcirc] at f2
    | some c =>
      have hcid : c.id = 2 := by simpa [hcirc, hn] using f2
      obtain ⟨l1, l2, l3, l4⟩ := SosJs.updateAll_later h rest _ _ c f1 hcirc
      have hstep : SosJs.updateAll h (first :: rest) (SosJs.load h status0) =
          SosJs.updateAll h rest
            (SosJs.updateMap h first.1 first.2.1 first.2.2 (SosJs.load h status0)) := rfl
      rw [hstep]
      refine ⟨hm, hc, hmc, hcc, ?_, ?_, ?_, ?_, ?_⟩
      · rw [l1, hn]
      · rw [l2, hcid]
      · simp only [markerCount] at hmc ⊢
        rw [l3, f3, List.filter_append, List.length_append, hmc]
        rfl
      · simp only [circleCount] at hcc ⊢
        rw [l3, f3, List.filter_append, List.length_append, hcc]
        rfl
      · rw [l4, f4, hn]
  · obtain ⟨hm, hc, hn, hmc, hcc⟩ := ScriptJs.load_starts_empty h status0
    obtain ⟨f1, f2, f3, f4⟩ :=
      ScriptJs.updateMap_creates h first.1 first.2.1 first.2.2 (ScriptJs.load h status0) hm hc
    cases hcirc : (ScriptJs.updateMap h first.1 first.2.1 first.2.2
        (ScriptJs.load h status0)).accuracyCircle with
    | none => simp [hcirc] at f2
    | some c =>
      have hcid : c.id = 2 := by simpa [hcirc, hn] using f2
      obtain ⟨l1, l2, l3, l4⟩ := ScriptJs.updateAll_keeps h rest _ _ c f1 hcirc
      have hstep : ScriptJs.updateAll h (first :: rest) (ScriptJs.load h status0) =
          ScriptJs.updateAll h rest
            (ScriptJs.updateMap h first.1 first.2.1 first.2.2 (ScriptJs.load h status0)) := rfl
      rw [hstep]
      refine ⟨hm, hc, hmc, hcc, ?_, ?_, ?_, ?_, ?_⟩
      · rw [l1, hn]
      · rw [l2, hcid]
      · simp only [markerCount] at hmc ⊢
        rw [l3, f3, List.filter_append, List.length_append, hmc]
        rfl
      · simp only [circleCount] at hcc ⊢
        rw [l3, f3, List.filter_append, List.length_append, hcc]
        rfl
      · rw [l4, f4, hn]

/-! ## Location errors -/

/-- C9: in `static/js/sos.js` the error callback of the tracker sets the status
text to the fixed message of the class of the error (permission denied, position
unavailable, timeout, unknown), the four messages are pairwise distinct, and
two errors of one class give the same text whatever their message fields are.
In `static/script.js` the error callback breaks this: for two permission-denied
errors that differ only in their message fields the status texts are
`Location access error: User denied Geolocation` and
`Location access error: Blocked by policy`, which differ and show the raw
message. -/
theorem location_error_rendering (e e2 : PositionError) (st st2 : Page) :
    ((SosJs.onError e st).status = errorMessage e.errorClass ∧
        (∀ c d : ErrorClass, errorMessage c = errorMessage d → c = d) ∧
        (e.errorClass = e2.errorClass →
          (SosJs.onError e st).status = (SosJs.onError e2 st2).status)) ∧
      ((PositionError.mk 1 "User denied Geolocation").errorClass =
          (PositionError.mk 1 "Blocked by policy").errorClass ∧
        (ScriptJs.onError ⟨1, "User denied Geolocation"⟩ st).status =
          "Location access error: User denied Geolocation" ∧
        (ScriptJs.onError ⟨1, "Blocked by policy"⟩ st).status =
          "Location access error: Blocked by policy" ∧
        (ScriptJs.onError ⟨1, "User denied Geolocation"⟩ st).status ≠
          (ScriptJs.onError ⟨1, "Blocked by policy"⟩ st).status) := by
  refine ⟨⟨by rw [SosJs.onError_eq], ?_, ?_⟩, by decide, by rfl, by rfl, ?_⟩
  · intro c d hcd
    cases c <;> cases d <;> first | rfl | exact absurd hcd (by decide)
  · intro hclass
    rw [SosJs.onError_eq, SosJs.onError_eq, hclass]
  · show "Location access error: User denied Geolocation" ≠
      "Location access error: Blocked by policy"
    decide

theorem location_error_rendering_witness :
    (SosJs.onError ⟨1, "User denied Geolocation"⟩ (SosJs.load browser "")).status =
      (SosJs.onError ⟨1, "Blocked by policy"⟩ (SosJs.load browser "Locating...")).status :=
  (location_error_rendering ⟨1, "User denied Geolocation"⟩ ⟨1, "Blocked by policy"⟩
    (SosJs.load browser "") (SosJs.load browser "Locating...")).1.2.2 (by decide)

/-- C10, as the script has it: the error callback of the tracker of
`static/js/sos.js` writes the error to the console and sets the status text, and
changes nothing else: it makes no new subscription and does not cancel the
existing one, and marker and circle stay as they were.  A sample that the same
subscription delivers afterwards is processed like any other: the marker and the
accuracy circle move to it and the radius becomes its accuracy. -/
theorem tracker_continues_after_error (h : Host) (st : Page) (e : PositionError)
    (p : Position) (hw : watching h st = true) :
    SosJs.deliver h (.error e) st =
        { st with
          status := errorMessage e.errorClass
          console := LogEntry.location e :: st.console } ∧
      watching h (SosJs.deliver h (.error e) st) = true ∧
      SosJs.run h [.error e, .position p] st =
        SosJs.onPosition h p (SosJs.deliver h (.error e) st) ∧
      (SosJs.run h [.error e, .position p] st).marker.map (fun m => m.latlng) =
        some ⟨p.coords.latitude, p.coords.longitude⟩ ∧
      (SosJs.run h [.error e, .position p] st).accuracyCircle.map
          (fun c => (c.latlng, c.radius)) =
        some (⟨p.coords.latitude, p.coords.longitude⟩, p.coords.accuracy) := by
  have herr : SosJs.deliver h (.error e) st =
      { st with
        status := errorMessage e.errorClass
        console := LogEntry.location e :: st.console } := by
    rw [SosJs.deliver_error h e st hw, SosJs.onError_eq]
  have hw2 : watching h (SosJs.deliver h (.error e) st) = true := by
    rw [herr]; exact hw
  have hrun : SosJs.run h [.error e, .position p] st =
      SosJs.onPosition h p (SosJs.deliver h (.error e) st) := by
    rw [SosJs.run_cons, SosJs.run_cons, SosJs.run_nil, SosJs.deliver_position h p _ hw2]
  refine ⟨herr, hw2, hrun, ?_, ?_⟩
  · rw [hrun, SosJs.onPosition_marker, SosJs.updateMap_marker]
    rfl
  · rw [hrun, SosJs.onPosition_circle, SosJs.updateMap_circle_place]

theorem tracker_continues_after_error_witness :
    (SosJs.run browser [.error ⟨3, "Timeout expired"⟩, .position ⟨⟨12, 77, 65⟩⟩]
        (SosJs.load browser "")).marker.map (fun m => m.latlng) = some ⟨12, 77⟩ :=
  (tracker_continues_after_error browser (SosJs.load browser "") ⟨3, "Timeout expired"⟩
    ⟨⟨12, 77, 65⟩⟩ (by decide)).2.2.2.1

/-- C10 as stated fails: after a timeout error a sample from the same
subscription is processed; the marker and the accuracy circle, absent right
after the error, exist after the sample, and the status text changes from the
timeout message to the coordinate line of the sample. -/
theorem sample_after_error_is_processed :
    (SosJs.run browser [.error ⟨3, "Timeout expired"⟩, .position ⟨⟨12, 77, 65⟩⟩]
          (SosJs.load browser "")).marker ≠
        (SosJs.run browser [.error ⟨3, "Timeout expired"⟩] (SosJs.load browser "")).marker ∧
      (SosJs.run browser [.error ⟨3, "Timeout expired"⟩, .position ⟨⟨12, 77, 65⟩⟩]
          (SosJs.load browser "")).status ≠
        (SosJs.run browser [.error ⟨3, "Timeout expired"⟩] (SosJs.load browser "")).status ∧
      (SosJs.run browser [.error ⟨3, "Timeout expired"⟩] (SosJs.load browser "")).marker = none ∧
      (SosJs.run browser [.error ⟨3, "Timeout expired"⟩, .position ⟨⟨12, 77, 65⟩⟩]
          (SosJs.load browser "")).marker = some ⟨1, ⟨12, 77⟩⟩ ∧
      (SosJs.run browser [.error ⟨3, "Timeout expired"⟩]
          (SosJs.load browser "")).accuracyCircle = none ∧
      (SosJs.run browser [.error ⟨3, "Timeout expired"⟩, .position ⟨⟨12, 77, 65⟩⟩]
          (SosJs.load browser "")).accuracyCircle.map (fun c => (c.latlng, c.radius)) =
        some (⟨12, 77⟩, 65) ∧
      (SosJs.run browser [.error ⟨3, "Timeout expired"⟩] (SosJs.load browser "")).status =
        "Getting location timed out. Please try again." ∧
      (SosJs.run browser [.error ⟨3, "Timeout expired"⟩, .position ⟨⟨12, 77, 65⟩⟩]
          (SosJs.load browser "")).status =
        "Current Location: 12.00000, 77.00000<br>Accuracy: ±65.0 meters" := by
  suffices hval :
      (SosJs.run browser [.error ⟨3, "Timeout expired"⟩] (SosJs.load browser "")).marker = none ∧
      (SosJs.run browser [.error ⟨3, "Timeout expired"⟩, .position ⟨⟨12, 77, 65⟩⟩]
          (SosJs.load browser "")).marker = some ⟨1, ⟨12, 77⟩⟩ ∧
      (SosJs.run browser [.error ⟨3, "Timeout expired"⟩]
          (SosJs.load browser "")).accuracyCircle = none ∧
      (SosJs.run browser [.error ⟨3, "Timeout expired"⟩, .position ⟨⟨12, 77, 65⟩⟩]
          (SosJs.load browser "")).accuracyCircle.map (fun c => (c.latlng, c.radius)) =
        some (⟨12, 77⟩, 65) ∧
      (SosJs.run browser [.error ⟨3, "Timeout expired"⟩] (SosJs.load browser "")).status =
        "Getting location timed out. Please try again." ∧
      (SosJs.run browser [.error ⟨3, "Timeout expired"⟩, .position ⟨⟨12, 77, 65⟩⟩]
          (SosJs.load browser "")).status =
        "Current Location: 12.00000, 77.00000<br>Accuracy: ±65.0 meters" by
    refine ⟨?_, ?_, hval⟩
    · rw [hval.1, hval.2.1]; simp
    · rw [hval.2.2.2.2.1, hval.2.2.2.2.2]; decide
  have hw : watching browser (SosJs.load browser "") = true := by decide
  have herr : SosJs.run browser [.error ⟨3, "Timeout expired"⟩] (SosJs.load browser "") =
      SosJs.onError ⟨3, "Timeout expired"⟩ (SosJs.load browser "") := by
    rw [SosJs.run_cons, SosJs.run_nil, SosJs.deliver_error _ _ _ hw]
  have hw2 : watching browser (SosJs.onError ⟨3, "Timeout expired"⟩ (SosJs.load browser "")) =
      true := by decide
  have hrun : SosJs.run browser [.error ⟨3, "Timeout expired"⟩, .position ⟨⟨12, 77, 65⟩⟩]
      (SosJs.load browser "") =
      SosJs.onPosition browser ⟨⟨12, 77, 65⟩⟩
        (SosJs.onError ⟨3, "Timeout expired"⟩ (SosJs.load browser "")) := by
    rw [SosJs.run_cons, SosJs.run_cons, SosJs.run_nil, SosJs.deliver_error _ _ _ hw,
      SosJs.deliver_position _ _ _ hw2]
  have hcoarse : (30 : Rat) < (Position.mk ⟨12, 77, 65⟩).coords.accuracy := by norm_num
  rw [hrun, herr]
  refine ⟨by decide, ?_, by decide, ?_, by decide, ?_⟩
  · rw [SosJs.onPosition_marker, SosJs.updateMap_marker, SosJs.onError_eq]
    rfl
  · rw [SosJs.onPosition_circle, SosJs.updateMap_circle_place]
  · rw [SosJs.onPosition_coarse _ _ _ hcoarse, SosJs.updateMap_status]
    rw [toFixed_of_rounding browser 12 5 1200000 (by norm_num) (by norm_num) (by norm_num)
        (by norm_num),
      toFixed_of_rounding browser 77 5 7700000 (by norm_num) (by norm_num) (by norm_num)
        (by norm_num),
      toFixed_of_rounding browser 65 1 650 (by norm_num) (by norm_num) (by norm_num)
        (by norm_num)]
    decide

end WomenSafety
